import Mathlib

/-!
Shallow embedding of the logging subsystem declared in
`src/src/utility/Logger.hpp` (C++ namespace `Game::Log`).

The repository ships only the header: the class interfaces, the data members
of `Logger`, and the inline template bodies (`Logger::operator<<` and the two
`LoggerHelper` specialisations) are source text; the remaining method bodies
are declared but not defined in the repository's files, and are modelled here
from the specification (each such definition carries a doc comment starting
`Modelled from the spec:`).

Machine integers (`size_t`, tick counts) are modelled by `Nat`; none of the
reviewed claims depends on overflow. `std::ostringstream` is modelled by the
string it holds, an output sink by an abstract numeric handle together with
the list of messages it has received, and the worker-thread pool by the
drain it performs: the claims under review concern the observable queue and
sink contents, which the spec pins down sequentially per channel.
-/

namespace Log

/-- The logger channel id type (`using Id = std::string`, Logger.hpp line 21). -/
abbrev Id := String

/-- Modelled from the spec: `default_id` is declared `extern` in the header
(line 26) with no definition in the repository's files; the spec only
requires that one well-known default value exists. -/
def default_id : Id := "default"

/-- The four logging priorities, in the declaration order of the source enum
(`enum class Priority { DEBUG, INFO, WARNING, ERROR }`, lines 46-48). -/
inductive Priority
  | DEBUG
  | INFO
  | WARNING
  | ERROR
deriving DecidableEq, Repr, Fintype

/-- The rank of a priority, fixed by the source enum's declaration order. -/
def Priority.toNat : Priority → Nat
  | .DEBUG => 0
  | .INFO => 1
  | .WARNING => 2
  | .ERROR => 3

/-- Modelled from the spec: `operator<(Priority, Priority)` is declared in the
header ("defines a complete ordering on priorities", lines 50-53) but its body
is not in the repository's files; the spec fixes DEBUG < INFO < WARNING <
ERROR, which is the declaration order of the source enum. -/
def Priority.lt (a b : Priority) : Bool := decide (a.toNat < b.toNat)

/-- "Equal or higher" priority, as the flush contract words it: the negation
of `Priority.lt` the other way around. -/
def Priority.le (a b : Priority) : Bool := !(Priority.lt b a)

/-- The Logger state, with exactly the data members of the source class
(Logger.hpp lines 210-216): a `const` threshold `min_priority_`, the mutable
current priority `priority_`, and the text buffer `buffer_` (an
`std::ostringstream`, modelled by the string it holds). The member list in
the source is complete; in particular there is no channel id member. -/
structure Logger where
  min_priority_ : Priority
  priority_ : Priority
  buffer_ : String
deriving DecidableEq, Repr

/-- A completed message as forwarded to the system: channel id, priority,
timestamp and text (spec section 4.2, flush). Timestamps are abstract ticks. -/
structure Message where
  channel : Id
  priority : Priority
  timestamp : Nat
  text : String
deriving DecidableEq, Repr

/-- A channel output binding: an abstract sink handle plus the ownership flag
(`set_output(Id, std::ostream *, bool owns_output)`, lines 121-125). -/
structure Binding where
  sink : Nat
  owns : Bool
deriving DecidableEq, Repr

/-- Modelled from the spec: the private state of `LoggerSystem` is not in the
repository's files (the header declares only the interface, lines 65-137);
the fields follow spec section 3: period, thread count, global default
min-priority, running flag, channel-to-binding map, pending queues. The
per-channel pending queues are modelled as one list in submission order (a
channel's queue is the sublist of its messages, which keeps per-channel
order); `received k` is the sequence of messages sink `k` has been handed so
far, and `destroyed` records the handles of sinks destroyed by ownership
transfer. -/
structure LoggerSystem where
  period : Nat
  threadCount : Nat
  minPriority : Priority
  running : Bool
  bindings : Id → Option Binding
  pending : List Message
  received : Nat → List Message
  destroyed : List Nat

/-- Modelled from the spec: the initial system state is not in the
repository's files. The invariant "thread_count ≥ 1 at all times" forces a
positive initial thread count, so one worker; INFO default threshold; not
running; no bindings, nothing pending, nothing delivered or destroyed. -/
def initSystem : LoggerSystem :=
  { period := 0
    threadCount := 1
    minPriority := Priority.INFO
    running := false
    bindings := fun _ => none
    pending := []
    received := fun _ => []
    destroyed := [] }

/-- Modelled from the spec: body of `LoggerSystem::period(Duration)` is not in
the repository's files; it stores the drain period. -/
def LoggerSystem.setPeriod (s : LoggerSystem) (d : Nat) : LoggerSystem :=
  { s with period := d }

/-- Modelled from the spec: body of `LoggerSystem::thread_count(size_t)` is
not in the repository's files. The header documents "throws
std::invalid_argument if thread_count = 0" (line 88), and the spec adds that
the rejection leaves the state unchanged; the throw is modelled by returning
the unchanged state together with `some` error. -/
def LoggerSystem.setThreadCount (s : LoggerSystem) (n : Nat) :
    LoggerSystem × Option String :=
  if n = 0 then (s, some "invalid_argument") else ({ s with threadCount := n }, none)

/-- Modelled from the spec: body of `LoggerSystem::min_priority(Priority)` is
not in the repository's files; it stores the default threshold for loggers
created afterwards. -/
def LoggerSystem.setMinPriority (s : LoggerSystem) (p : Priority) : LoggerSystem :=
  { s with minPriority := p }

/-- Modelled from the spec: one step of a drain writes one pending message to
the sink bound to its channel and discards it when the channel is unbound
(spec section 4.3: "writing each message to its bound sink, discarding
messages for unbound channels"). -/
def deliver (s : LoggerSystem) (m : Message) : LoggerSystem :=
  match s.bindings m.channel with
  | some b =>
      { s with received := fun k => if k = b.sink then s.received k ++ [m] else s.received k }
  | none => s

/-- Modelled from the spec: a full drain writes every pending message, in
submission order, to its channel's bound sink and empties the queue. -/
def drainAll (s : LoggerSystem) : LoggerSystem :=
  { s.pending.foldl deliver s with pending := [] }

/-- Modelled from the spec: body of `LoggerSystem::stop` is not in the
repository's files. If the system is not running it returns false and does
nothing; otherwise it performs one final full drain, clears the running flag
and returns true. Worker joining has no further observable effect in this
model. -/
def LoggerSystem.stop (s : LoggerSystem) : Bool × LoggerSystem :=
  if s.running then (true, { drainAll s with running := false }) else (false, s)

/-- Modelled from the spec: body of `LoggerSystem::start` is not in the
repository's files. Starting a stopped system sets the running flag and
returns true; starting a running one is modelled as a no-op returning false
(the restart-on-changed-settings branch and the periodic worker loop are
beyond the reviewed claims, whose drains all happen through `stop`). -/
def LoggerSystem.start (s : LoggerSystem) : Bool × LoggerSystem :=
  if s.running then (false, s) else (true, { s with running := true })

/-- Modelled from the spec: body of `LoggerSystem::set_output` is not in the
repository's files. Installs or replaces the binding for `id`; if the prior
binding owned its sink, that sink is destroyed during the replacement
(recorded in `destroyed`). -/
def LoggerSystem.set_output (s : LoggerSystem) (id : Id) (sink : Nat) (owns : Bool) :
    LoggerSystem :=
  { s with
    destroyed :=
      match s.bindings id with
      | some b => if b.owns then s.destroyed ++ [b.sink] else s.destroyed
      | none => s.destroyed
    bindings := fun j => if j = id then some ⟨sink, owns⟩ else s.bindings j }

/-- Modelled from the spec: body of `LoggerSystem::clear_output` is not in the
repository's files. Removes the binding so the channel's subsequent messages
are silently discarded. -/
def LoggerSystem.clear_output (s : LoggerSystem) (id : Id) : LoggerSystem :=
  { s with bindings := fun j => if j = id then none else s.bindings j }

/-- `LoggerHelper<T>::execute` for a printable (non-manipulator) value
(Logger.hpp lines 250-257, an inline template body shipped in the header):
`logger.buffer_ << arg` appends the argument's textual rendering to the
buffer — no priority is consulted — and the same logger is returned. A
printable value is identified with its rendering. -/
def LoggerHelper.execute (l : Logger) (arg : String) : Logger :=
  { l with buffer_ := l.buffer_ ++ arg }

/-- Modelled from the spec: body of the `Logger::priority(Priority)` mutator
is not in the repository's files; it sets the message's current tag
(consulted only at completion, spec section 4.2). -/
def Logger.priority (l : Logger) (p : Priority) : Logger :=
  { l with priority_ := p }

/-- Modelled from the spec: body of `Logger::reset` is not in the
repository's files; reset "discards buffered text, returns to an empty
state; nothing is forwarded" (spec section 4.2). -/
def Logger.reset (l : Logger) : Logger :=
  { l with buffer_ := "" }

/-- Modelled from the spec: body of the `Logger::min_priority(Priority)`
mutator is not in the repository's files. The spec fixes the threshold at
construction, and the member `min_priority_` is declared `const` in the
source (line 211), so no definition of this mutator can assign to it; it is
modelled as leaving the logger unchanged. -/
def Logger.min_priority (l : Logger) (_p : Priority) : Logger := l

/-- Modelled from the spec: body of `Logger::flush` is not in the
repository's files. Per the spec (section 4.2), if the current priority is
equal or higher than the threshold, the message {channel id, priority,
timestamp, buffered text} is forwarded once to the system's queue and the
buffer cleared; otherwise the buffer is cleared without forwarding; and a
second flush right after, with the buffer empty, must not re-forward. The
Logger stores neither a channel id nor a timestamp (its complete member list
is lines 210-216), so both are parameters here; and with only those members
the required flush-after-flush no-op forces suppressing empty-buffer
messages, which is also the spec's own recommendation (section 9). -/
def Logger.flush (l : Logger) (chan : Id) (now : Nat) (s : LoggerSystem) :
    Logger × LoggerSystem :=
  if Priority.le l.min_priority_ l.priority_ ∧ l.buffer_ ≠ "" then
    ({ l with buffer_ := "" },
     { s with pending := s.pending ++ [⟨chan, l.priority_, now, l.buffer_⟩] })
  else
    ({ l with buffer_ := "" }, s)

/-- Modelled from the spec: the bodies of the Logger constructors (lines
165-174) are not in the repository's files. A logger takes its threshold
from the explicit argument or else the system's current default, starts with
an empty buffer, and with DEBUG as current priority (spec section 8: a fresh
logger under a WARNING threshold forwards nothing until its priority is
raised). The source member list (lines 210-216) is complete — only
`min_priority_`, `priority_` and `buffer_` — so the channel id argument of
`Logger(const Id &)` cannot be stored in the constructed object and does not
appear in the result. -/
def Logger.mkWithId (_id : Id) (threshold : Priority) : Logger :=
  { min_priority_ := threshold, priority_ := Priority.DEBUG, buffer_ := "" }

/-- The six manipulator functions declared in the source (lines 218-243), as
a closed enumeration, as the spec's design notes (section 9) recommend. -/
inductive Manipulator
  | mend
  | mreset
  | mdebug
  | minfo
  | mwarning
  | merror
deriving DecidableEq, Repr

/-- Modelled from the spec: the bodies of the six manipulator functions are
not in the repository's files. `end` calls `Logger::flush`, `reset` calls
`Logger::reset`, and `debug`/`info`/`warning`/`error` set the current
priority to the named level; each returns the logger it was given. The
channel/timestamp/system context that flush needs is threaded explicitly. -/
def runManipulator (m : Manipulator) (l : Logger) (chan : Id) (now : Nat)
    (s : LoggerSystem) : Logger × LoggerSystem :=
  match m with
  | .mend => l.flush chan now s
  | .mreset => (l.reset, s)
  | .mdebug => (l.priority Priority.DEBUG, s)
  | .minfo => (l.priority Priority.INFO, s)
  | .mwarning => (l.priority Priority.WARNING, s)
  | .merror => (l.priority Priority.ERROR, s)

/-- `LoggerHelper<Manipulator>::execute` (Logger.hpp lines 259-264, an inline
specialisation shipped in the header): a manipulator argument is invoked
immediately on the logger — `return (*arg)(logger)` — nothing is buffered
and no priority is tested. -/
def LoggerHelper.executeManip (l : Logger) (m : Manipulator) (chan : Id) (now : Nat)
    (s : LoggerSystem) : Logger × LoggerSystem :=
  runManipulator m l chan now s

/-- One streamed argument: either a printable value, identified with its
textual rendering, or a manipulator — the two instantiations of the
`LoggerHelper` template that `Logger::operator<<` dispatches to. -/
inductive StreamArg
  | val (render : String)
  | manip (m : Manipulator)
deriving DecidableEq, Repr

/-- `Logger::operator<<` (Logger.hpp lines 180-182, an inline body shipped in
the header): dispatches on the argument's type to `LoggerHelper<T>::execute`
and returns its result. -/
def Logger.shl (l : Logger) (chan : Id) (now : Nat) (s : LoggerSystem) :
    StreamArg → Logger × LoggerSystem
  | .val r => (LoggerHelper.execute l r, s)
  | .manip m => LoggerHelper.executeManip l m chan now s

/-- A C++ `Logger &` as the streaming interface hands it around: the identity
of the referenced object (`addr`) together with its current state. An
operation acting through the reference keeps `addr` and updates `state`. -/
structure LoggerRef where
  addr : Nat
  state : Logger
deriving DecidableEq, Repr

/-- Modelled from the spec: the manipulator bodies are not in the
repository's files, and each "returns the logger for chaining" (spec section
4.2) — at the reference level the returned reference is the argument itself,
so the address is unchanged and the state is the manipulator's effect. -/
def runManipulatorRef (m : Manipulator) (r : LoggerRef) (chan : Id) (now : Nat)
    (s : LoggerSystem) : LoggerRef × LoggerSystem :=
  let p := runManipulator m r.state chan now s
  (⟨r.addr, p.1⟩, p.2)

/-- `Logger::operator<<` at the reference level: a printable argument is
appended through `LoggerHelper<T>::execute`, whose body returns its `logger`
argument (source line 254), so the same reference comes back; a manipulator
argument's result reference is returned (source line 262). -/
def LoggerRef.shl (r : LoggerRef) (chan : Id) (now : Nat) (s : LoggerSystem) :
    StreamArg → LoggerRef × LoggerSystem
  | .val v => (⟨r.addr, LoggerHelper.execute r.state v⟩, s)
  | .manip m => runManipulatorRef m r chan now s

/-- A chain `logger << a1 << a2 << ...`: each step acts on the reference the
previous step returned. -/
def LoggerRef.shlChain (r : LoggerRef) (chan : Id) (now : Nat) (s : LoggerSystem) :
    List StreamArg → LoggerRef × LoggerSystem
  | [] => (r, s)
  | a :: rest =>
      let p := r.shl chan now s a
      p.1.shlChain chan now p.2 rest

/-- The system states reachable from the initial state through the public
operations (with message submission through `Logger.flush`). -/
inductive Reachable : LoggerSystem → Prop
  | init : Reachable initSystem
  | setPeriod {s} (d : Nat) : Reachable s → Reachable (s.setPeriod d)
  | setThreadCount {s} (n : Nat) : Reachable s → Reachable (s.setThreadCount n).1
  | setMinPriority {s} (p : Priority) : Reachable s → Reachable (s.setMinPriority p)
  | start {s} : Reachable s → Reachable s.start.2
  | stop {s} : Reachable s → Reachable s.stop.2
  | set_output {s} (id : Id) (k : Nat) (o : Bool) : Reachable s → Reachable (s.set_output id k o)
  | clear_output {s} (id : Id) : Reachable s → Reachable (s.clear_output id)
  | flush {s} (l : Logger) (c : Id) (t : Nat) : Reachable s → Reachable (l.flush c t s).2

/-- Whether a drain of system `s` hands message `m` to sink `k`: the
channel's binding exists and names that sink. -/
def deliversTo (s : LoggerSystem) (k : Nat) (m : Message) : Bool :=
  match s.bindings m.channel with
  | some b => b.sink == k
  | none => false

lemma deliver_bindings (s : LoggerSystem) (m : Message) :
    (deliver s m).bindings = s.bindings := by
  unfold deliver
  cases s.bindings m.channel <;> rfl

lemma deliver_pending (s : LoggerSystem) (m : Message) :
    (deliver s m).pending = s.pending := by
  unfold deliver
  cases s.bindings m.channel <;> rfl

lemma deliver_threadCount (s : LoggerSystem) (m : Message) :
    (deliver s m).threadCount = s.threadCount := by
  unfold deliver
  cases s.bindings m.channel <;> rfl

lemma deliver_received (s : LoggerSystem) (m : Message) (k : Nat) :
    (deliver s m).received k =
      if deliversTo s k m then s.received k ++ [m] else s.received k := by
  unfold deliver deliversTo
  cases hb : s.bindings m.channel with
  | none => simp
  | some b =>
      by_cases hk : k = b.sink
      · simp [hk]
      · have : (b.sink == k) = false := by
          simp [beq_iff_eq]
          exact fun h => hk h.symm
        simp [hk, this]

lemma foldl_deliver_bindings (ms : List Message) (s : LoggerSystem) :
    (ms.foldl deliver s).bindings = s.bindings := by
  induction ms generalizing s with
  | nil => rfl
  | cons m rest ih =>
      show (rest.foldl deliver (deliver s m)).bindings = s.bindings
      rw [ih, deliver_bindings]

lemma foldl_deliver_threadCount (ms : List Message) (s : LoggerSystem) :
    (ms.foldl deliver s).threadCount = s.threadCount := by
  induction ms generalizing s with
  | nil => rfl
  | cons m rest ih =>
      show (rest.foldl deliver (deliver s m)).threadCount = s.threadCount
      rw [ih, deliver_threadCount]

lemma deliversTo_deliver (s : LoggerSystem) (m : Message) (k : Nat) :
    deliversTo (deliver s m) k = deliversTo s k := by
  funext x
  unfold deliversTo
  rw [deliver_bindings]

lemma foldl_deliver_received (ms : List Message) (s : LoggerSystem) (k : Nat) :
    (ms.foldl deliver s).received k =
      s.received k ++ ms.filter (deliversTo s k) := by
  induction ms generalizing s with
  | nil => simp
  | cons m rest ih =>
      show (rest.foldl deliver (deliver s m)).received k =
        s.received k ++ (m :: rest).filter (deliversTo s k)
      rw [ih (deliver s m), deliversTo_deliver, deliver_received]
      by_cases hm : deliversTo s k m
      · rw [if_pos hm, List.filter_cons_of_pos hm, List.append_assoc,
          List.singleton_append]
      · rw [if_neg hm, List.filter_cons_of_neg (by simpa using hm)]

lemma drainAll_received (s : LoggerSystem) (k : Nat) :
    (drainAll s).received k = s.received k ++ s.pending.filter (deliversTo s k) := by
  show (s.pending.foldl deliver s).received k = _
  exact foldl_deliver_received s.pending s k

lemma drainAll_pending (s : LoggerSystem) : (drainAll s).pending = [] := rfl

lemma drainAll_threadCount (s : LoggerSystem) :
    (drainAll s).threadCount = s.threadCount := by
  show (s.pending.foldl deliver s).threadCount = s.threadCount
  exact foldl_deliver_threadCount s.pending s

lemma flush_fst (l : Logger) (c : Id) (t : Nat) (s : LoggerSystem) :
    (l.flush c t s).1 = { l with buffer_ := "" } := by
  unfold Logger.flush
  split <;> rfl

lemma flush_snd_pos (l : Logger) (c : Id) (t : Nat) (s : LoggerSystem)
    (h1 : Priority.le l.min_priority_ l.priority_ = true) (h2 : l.buffer_ ≠ "") :
    (l.flush c t s).2 =
      { s with pending := s.pending ++ [⟨c, l.priority_, t, l.buffer_⟩] } := by
  unfold Logger.flush
  rw [if_pos ⟨h1, h2⟩]

lemma flush_snd_neg (l : Logger) (c : Id) (t : Nat) (s : LoggerSystem)
    (h : ¬(Priority.le l.min_priority_ l.priority_ = true ∧ l.buffer_ ≠ "")) :
    (l.flush c t s).2 = s := by
  unfold Logger.flush
  rw [if_neg h]

lemma flush_threadCount (l : Logger) (c : Id) (t : Nat) (s : LoggerSystem) :
    (l.flush c t s).2.threadCount = s.threadCount := by
  unfold Logger.flush
  split <;> rfl

lemma start_threadCount (s : LoggerSystem) : s.start.2.threadCount = s.threadCount := by
  unfold LoggerSystem.start
  split <;> rfl

lemma stop_threadCount (s : LoggerSystem) : s.stop.2.threadCount = s.threadCount := by
  unfold LoggerSystem.stop
  split
  · show (drainAll s).threadCount = s.threadCount
    exact drainAll_threadCount s
  · rfl

lemma reachable_threadCount_pos {s : LoggerSystem} (h : Reachable s) :
    1 ≤ s.threadCount := by
  induction h with
  | init => exact Nat.le_refl 1
  | setPeriod d _ ih => exact ih
  | setThreadCount n _ ih =>
      by_cases hn : n = 0
      · simpa [LoggerSystem.setThreadCount, hn] using ih
      · simp only [LoggerSystem.setThreadCount, if_neg hn]
        exact Nat.one_le_iff_ne_zero.mpr hn
  | setMinPriority p _ ih => exact ih
  | start _ ih =>
      rw [start_threadCount]
      exact ih
  | stop _ ih =>
      rw [stop_threadCount]
      exact ih
  | set_output id k o _ ih => exact ih
  | clear_output id _ ih => exact ih
  | flush l c t _ ih =>
      rw [flush_threadCount]
      exact ih

/-- C1: `flush` compares the current priority to the threshold: at or above
the threshold (with text buffered) it forwards the message — channel id,
priority, timestamp, buffered text — to the system's queue exactly once and
clears the buffer; below the threshold it clears the buffer without
forwarding; and an immediate second flush, the buffer now empty, forwards
nothing and is a no-op. -/
theorem flush_filters_forwards_once (l : Logger) (c : Id) (t : Nat) (s : LoggerSystem) :
    (Priority.le l.min_priority_ l.priority_ = true → l.buffer_ ≠ "" →
      (l.flush c t s).2.pending = s.pending ++ [⟨c, l.priority_, t, l.buffer_⟩] ∧
      (l.flush c t s).1.buffer_ = "") ∧
    (Priority.lt l.priority_ l.min_priority_ = true →
      (l.flush c t s).2 = s ∧ (l.flush c t s).1.buffer_ = "") ∧
    (∀ c' t' s', (l.flush c t s).1.flush c' t' s' = ((l.flush c t s).1, s')) := by
  refine ⟨fun h1 h2 => ⟨?_, ?_⟩, fun hlt => ⟨?_, ?_⟩, fun c' t' s' => ?_⟩
  · rw [flush_snd_pos l c t s h1 h2]
  · rw [flush_fst]
  · have hle : Priority.le l.min_priority_ l.priority_ = false := by
      unfold Priority.le
      rw [hlt]
      rfl
    exact flush_snd_neg l c t s (by simp [hle])
  · rw [flush_fst]
  · rw [flush_fst]
    have hempty : ¬(Priority.le ({ l with buffer_ := "" } : Logger).min_priority_
        ({ l with buffer_ := "" } : Logger).priority_ = true ∧
        ({ l with buffer_ := "" } : Logger).buffer_ ≠ "") := by
      intro hc
      exact hc.2 rfl
    rw [show ({ l with buffer_ := "" } : Logger).flush c' t' s' =
        (({ l with buffer_ := "" } : Logger), s') from by
      unfold Logger.flush
      rw [if_neg hempty]]

/-- Closed instance of C1's theorem: a WARNING-tagged message on an INFO
threshold is enqueued once with its text and the buffer cleared; a DEBUG
message under a WARNING threshold is dropped with the system untouched; and
the flushed logger's second flush is a no-op. -/
theorem flush_filters_forwards_once_witness :
    ((Logger.mk Priority.INFO Priority.WARNING "connected").flush "net" 5 initSystem).2.pending =
      initSystem.pending ++ [⟨"net", Priority.WARNING, 5, "connected"⟩] ∧
    ((Logger.mk Priority.WARNING Priority.DEBUG "noise").flush "net" 5 initSystem).2 = initSystem ∧
    (((Logger.mk Priority.INFO Priority.WARNING "connected").flush "net" 5 initSystem).1.flush "net" 6 initSystem =
      (((Logger.mk Priority.INFO Priority.WARNING "connected").flush "net" 5 initSystem).1, initSystem)) :=
  ⟨((flush_filters_forwards_once (Logger.mk Priority.INFO Priority.WARNING "connected")
      "net" 5 initSystem).1 (by decide) (by decide)).1,
   ((flush_filters_forwards_once (Logger.mk Priority.WARNING Priority.DEBUG "noise")
      "net" 5 initSystem).2.1 (by decide)).1,
   (flush_filters_forwards_once (Logger.mk Priority.INFO Priority.WARNING "connected")
      "net" 5 initSystem).2.2 "net" 6 initSystem⟩

/-- C2: a printable value streamed through `operator<<` is appended to the
buffer unconditionally — whatever the current priority and threshold are,
with both left untouched and the system not consulted; filtering happens only
at completion. -/
theorem stream_value_appends_unconditionally (l : Logger) (c : Id) (t : Nat)
    (s : LoggerSystem) (v : String) :
    (l.shl c t s (StreamArg.val v)).1.buffer_ = l.buffer_ ++ v ∧
    (l.shl c t s (StreamArg.val v)).1.min_priority_ = l.min_priority_ ∧
    (l.shl c t s (StreamArg.val v)).1.priority_ = l.priority_ ∧
    (l.shl c t s (StreamArg.val v)).2 = s :=
  ⟨rfl, rfl, rfl, rfl⟩

/-- C3: a streamed manipulator is executed immediately, for every logger
state and so regardless of the current priority: `end` performs the flush,
`reset` performs the reset, and `debug`/`info`/`warning`/`error` set the
current priority to the named level; each returns the logger for chaining. -/
theorem stream_manipulator_immediate (l : Logger) (c : Id) (t : Nat) (s : LoggerSystem) :
    l.shl c t s (StreamArg.manip Manipulator.mend) = l.flush c t s ∧
    l.shl c t s (StreamArg.manip Manipulator.mreset) = (l.reset, s) ∧
    l.shl c t s (StreamArg.manip Manipulator.mdebug) = (l.priority Priority.DEBUG, s) ∧
    l.shl c t s (StreamArg.manip Manipulator.minfo) = (l.priority Priority.INFO, s) ∧
    l.shl c t s (StreamArg.manip Manipulator.mwarning) = (l.priority Priority.WARNING, s) ∧
    l.shl c t s (StreamArg.manip Manipulator.merror) = (l.priority Priority.ERROR, s) ∧
    (l.shl c t s (StreamArg.manip Manipulator.mdebug)).1.priority_ = Priority.DEBUG ∧
    (l.shl c t s (StreamArg.manip Manipulator.minfo)).1.priority_ = Priority.INFO ∧
    (l.shl c t s (StreamArg.manip Manipulator.mwarning)).1.priority_ = Priority.WARNING ∧
    (l.shl c t s (StreamArg.manip Manipulator.merror)).1.priority_ = Priority.ERROR :=
  ⟨rfl, rfl, rfl, rfl, rfl, rfl, rfl, rfl, rfl, rfl⟩

/-- C4: `operator<` on Priority is a strict total order with exactly
DEBUG < INFO < WARNING < ERROR: irreflexive, transitive, total on distinct
levels, and holding on precisely the six pairs of that sequence. -/
theorem priority_lt_strict_total_order :
    (∀ a : Priority, Priority.lt a a = false) ∧
    (∀ a b c : Priority,
      Priority.lt a b = true → Priority.lt b c = true → Priority.lt a c = true) ∧
    (∀ a b : Priority, a ≠ b → Priority.lt a b = true ∨ Priority.lt b a = true) ∧
    (∀ a b : Priority, Priority.lt a b = true ↔
      ((a = Priority.DEBUG ∧ b = Priority.INFO) ∨
       (a = Priority.DEBUG ∧ b = Priority.WARNING) ∨
       (a = Priority.DEBUG ∧ b = Priority.ERROR) ∨
       (a = Priority.INFO ∧ b = Priority.WARNING) ∨
       (a = Priority.INFO ∧ b = Priority.ERROR) ∨
       (a = Priority.WARNING ∧ b = Priority.ERROR))) := by
  refine ⟨?_, ?_, ?_, ?_⟩ <;> decide

/-- C5: `thread_count(0)` is rejected with the documented invalid-argument
error, the state — in particular the observable thread count — is unchanged,
and every reachable system state has thread count ≥ 1. -/
theorem thread_count_zero_rejected (s : LoggerSystem) :
    (s.setThreadCount 0).2 = some "invalid_argument" ∧
    (s.setThreadCount 0).1 = s ∧
    (s.setThreadCount 0).1.threadCount = s.threadCount ∧
    (Reachable s → 1 ≤ s.threadCount) :=
  ⟨rfl, rfl, rfl, fun h => reachable_threadCount_pos h⟩

/-- Closed instance of C5's theorem at the initial (reachable) state. -/
theorem thread_count_zero_rejected_witness :
    (initSystem.setThreadCount 0).2 = some "invalid_argument" ∧
    1 ≤ initSystem.threadCount :=
  ⟨(thread_count_zero_rejected initSystem).1,
   (thread_count_zero_rejected initSystem).2.2.2 Reachable.init⟩

/-- C6: the threshold `min_priority_` is fixed for the Logger's lifetime —
every operation, the declared (const-blocked) `min_priority` mutator
included, preserves it — and forwarding at flush time is decided exactly by
the mutable current priority measured against that fixed threshold (with
text buffered). -/
theorem logger_threshold_fixed (l : Logger) (c : Id) (t : Nat) (s : LoggerSystem)
    (p : Priority) (v : String) (m : Manipulator) :
    (LoggerHelper.execute l v).min_priority_ = l.min_priority_ ∧
    (l.priority p).min_priority_ = l.min_priority_ ∧
    l.min_priority p = l ∧
    l.reset.min_priority_ = l.min_priority_ ∧
    (l.flush c t s).1.min_priority_ = l.min_priority_ ∧
    (runManipulator m l c t s).1.min_priority_ = l.min_priority_ ∧
    ((l.flush c t s).2.pending ≠ s.pending ↔
      (Priority.le l.min_priority_ l.priority_ = true ∧ l.buffer_ ≠ "")) := by
  refine ⟨rfl, rfl, rfl, rfl, by rw [flush_fst], ?_, ?_⟩
  · cases m
    case mend => rw [show runManipulator Manipulator.mend l c t s = l.flush c t s from rfl,
      flush_fst]
    all_goals rfl
  · by_cases hc : Priority.le l.min_priority_ l.priority_ = true ∧ l.buffer_ ≠ ""
    · refine ⟨fun _ => hc, fun _ => ?_⟩
      rw [flush_snd_pos l c t s hc.1 hc.2]
      intro he
      have hlen := congrArg List.length he
      simp at hlen
    · rw [flush_snd_neg l c t s hc]
      simp [hc]

/-- C7: `stop` returns false and changes nothing when the system is not
running; when it is running it performs one final full drain before
returning: with a stable binding `b` for channel `c` whose sink no other
channel shares, by the time stop returns the bound sink has received exactly
the messages completed on `c`, in submission order — none lost. -/
theorem stop_drains_channel (s : LoggerSystem) (c : Id) (b : Binding) :
    (s.running = false → s.stop = (false, s)) ∧
    (s.running = true → s.bindings c = some b →
      (∀ j b', j ≠ c → s.bindings j = some b' → b'.sink ≠ b.sink) →
      s.stop.1 = true ∧ s.stop.2.running = false ∧ s.stop.2.pending = [] ∧
      s.stop.2.received b.sink =
        s.received b.sink ++ s.pending.filter (fun m => m.channel == c)) := by
  constructor
  · intro h
    unfold LoggerSystem.stop
    rw [if_neg (by rw [h]; exact Bool.false_ne_true)]
  · intro hrun hb hsole
    have hstop : s.stop = (true, { drainAll s with running := false }) := by
      unfold LoggerSystem.stop
      rw [if_pos hrun]
    refine ⟨by rw [hstop], by rw [hstop], by rw [hstop]; rfl, ?_⟩
    rw [hstop]
    show (drainAll s).received b.sink = _
    rw [drainAll_received]
    congr 1
    apply List.filter_congr
    intro m _
    by_cases hm : m.channel = c
    · simp [deliversTo, hm, hb]
    · unfold deliversTo
      cases hbm : s.bindings m.channel with
      | none => simp [hm]
      | some b' =>
          have hs : b'.sink ≠ b.sink := hsole m.channel b' hm hbm
          simp [hm, hs]

/-- The binding of the demonstration system below: sink 7, not owned. -/
def demoBinding : Binding := ⟨7, false⟩

/-- A concrete running system: channel "net" bound to sink 7, two messages
completed on "net" pending in submission order. -/
def demoSystem : LoggerSystem :=
  { period := 1
    threadCount := 2
    minPriority := Priority.INFO
    running := true
    bindings := fun j => if j = "net" then some demoBinding else none
    pending := [⟨"net", Priority.WARNING, 3, "connected"⟩,
                ⟨"net", Priority.ERROR, 4, "closed"⟩]
    received := fun _ => []
    destroyed := [] }

/-- Closed instance of C7's theorem: stopping the demonstration system
reports success, halts it, empties the queue and hands sink 7 both pending
"net" messages in submission order. -/
theorem stop_drains_channel_witness :
    demoSystem.stop.1 = true ∧ demoSystem.stop.2.running = false ∧
    demoSystem.stop.2.pending = [] ∧
    demoSystem.stop.2.received demoBinding.sink =
      demoSystem.received demoBinding.sink ++
        demoSystem.pending.filter (fun m => m.channel == "net") :=
  (stop_drains_channel demoSystem "net" demoBinding).2 rfl
    (by simp [demoSystem])
    (by
      intro j b' hj hb'
      simp only [demoSystem] at hb'
      rw [if_neg hj] at hb'
      exact Option.noConfusion hb')

/-- C8: rebinding and unbinding a channel. The binding map is a function of
the channel id, so a channel has at most one active binding; `set_output`
installs or replaces the binding for exactly that channel, destroying a
previously owned sink in the same replacement step, and a drain afterwards
writes nothing further to the old sink (when no other channel shares it);
`clear_output` removes the binding, so the channel's subsequent messages are
silently discarded by the drain, reaching no sink. -/
theorem set_output_replaces_binding (s : LoggerSystem) (i : Id) (k : Nat) (o : Bool)
    (b : Binding) :
    (s.set_output i k o).bindings i = some ⟨k, o⟩ ∧
    (∀ j, j ≠ i → (s.set_output i k o).bindings j = s.bindings j) ∧
    (s.bindings i = some b → b.owns = true → b.sink ∈ (s.set_output i k o).destroyed) ∧
    (s.bindings i = some b → b.sink ≠ k →
      (∀ j b', j ≠ i → s.bindings j = some b' → b'.sink ≠ b.sink) →
      (drainAll (s.set_output i k o)).received b.sink = s.received b.sink) ∧
    (s.clear_output i).bindings i = none ∧
    ((∀ m ∈ s.pending, m.channel = i) →
      ∀ n, (drainAll (s.clear_output i)).received n = s.received n) := by
  refine ⟨?_, ?_, ?_, ?_, ?_, ?_⟩
  · simp [LoggerSystem.set_output]
  · intro j hj
    simp [LoggerSystem.set_output, hj]
  · intro hb ho
    simp [LoggerSystem.set_output, hb, ho]
  · intro hb hkb hsole
    rw [drainAll_received]
    show s.received b.sink ++
      List.filter (deliversTo (s.set_output i k o) b.sink) s.pending = s.received b.sink
    rw [List.filter_eq_nil_iff.mpr ?_, List.append_nil]
    intro m _
    unfold deliversTo
    by_cases hm : m.channel = i
    · simp only [LoggerSystem.set_output, hm, if_pos rfl]
      simp
      exact fun h => hkb h.symm
    · simp only [LoggerSystem.set_output]
      rw [if_neg hm]
      cases hbm : s.bindings m.channel with
      | none => simp
      | some b' =>
          have hs : b'.sink ≠ b.sink := hsole m.channel b' hm hbm
          simp [hs]
  · simp [LoggerSystem.clear_output]
  · intro hall n
    rw [drainAll_received]
    show s.received n ++
      List.filter (deliversTo (s.clear_output i) n) s.pending = s.received n
    rw [List.filter_eq_nil_iff.mpr ?_, List.append_nil]
    intro m hm
    unfold deliversTo
    simp [LoggerSystem.clear_output, hall m hm]

/-- The owned binding of the second demonstration system: sink 1, owned. -/
def demoOwned : Binding := ⟨1, true⟩

/-- A concrete running system: channel "net" bound to owned sink 1, one
message completed on "net" pending. -/
def demoSystem2 : LoggerSystem :=
  { period := 1
    threadCount := 1
    minPriority := Priority.INFO
    running := true
    bindings := fun j => if j = "net" then some demoOwned else none
    pending := [⟨"net", Priority.ERROR, 0, "dropped"⟩]
    received := fun _ => []
    destroyed := [] }

/-- Closed instance of C8's theorem: rebinding "net" to sink 2 installs the
new binding and destroys the owned sink 1, which a subsequent drain no
longer reaches; clearing "net" removes the binding and the drain discards
the pending "net" message, so sink 1 receives nothing. -/
theorem set_output_replaces_binding_witness :
    (demoSystem2.set_output "net" 2 false).bindings "net" = some ⟨2, false⟩ ∧
    demoOwned.sink ∈ (demoSystem2.set_output "net" 2 false).destroyed ∧
    (drainAll (demoSystem2.set_output "net" 2 false)).received demoOwned.sink =
      demoSystem2.received demoOwned.sink ∧
    (demoSystem2.clear_output "net").bindings "net" = none ∧
    (drainAll (demoSystem2.clear_output "net")).received 1 = demoSystem2.received 1 := by
  have hb : demoSystem2.bindings "net" = some demoOwned := by simp [demoSystem2]
  have hsole : ∀ j b', j ≠ "net" → demoSystem2.bindings j = some b' →
      b'.sink ≠ demoOwned.sink := by
    intro j b' hj hb'
    simp only [demoSystem2] at hb'
    rw [if_neg hj] at hb'
    exact Option.noConfusion hb'
  have hall : ∀ m ∈ demoSystem2.pending, m.channel = "net" := by
    intro m hm
    simp only [demoSystem2, List.mem_singleton] at hm
    rw [hm]
  exact ⟨(set_output_replaces_binding demoSystem2 "net" 2 false demoOwned).1,
    (set_output_replaces_binding demoSystem2 "net" 2 false demoOwned).2.2.1 hb rfl,
    (set_output_replaces_binding demoSystem2 "net" 2 false demoOwned).2.2.2.1 hb
      (by decide) hsole,
    (set_output_replaces_binding demoSystem2 "net" 2 false demoOwned).2.2.2.2.1,
    (set_output_replaces_binding demoSystem2 "net" 2 false demoOwned).2.2.2.2.2 hall 1⟩

/-- C9 (evaluation at the failing input): the source class's complete member
list holds only the threshold, the current priority and the buffer, so
construction cannot record the channel id — loggers constructed on any two
distinct channels are identical objects, and flush, acting on that state,
cannot forward the channel id the logger was constructed with. -/
theorem logger_state_carries_no_channel_id (id1 id2 : Id) (p : Priority) :
    Logger.mkWithId id1 p = Logger.mkWithId id2 p := rfl

lemma shl_addr (r : LoggerRef) (c : Id) (t : Nat) (s : LoggerSystem) (a : StreamArg) :
    (r.shl c t s a).1.addr = r.addr := by
  cases a <;> rfl

lemma shlChain_addr (c : Id) (t : Nat) :
    ∀ (args : List StreamArg) (r : LoggerRef) (s : LoggerSystem),
      (r.shlChain c t s args).1.addr = r.addr := by
  intro args
  induction args with
  | nil => intro r s; rfl
  | cons a rest ih =>
      intro r s
      show ((r.shl c t s a).1.shlChain c t (r.shl c t s a).2 rest).1.addr = r.addr
      rw [ih (r.shl c t s a).1 (r.shl c t s a).2]
      exact shl_addr r c t s a

/-- C10: `operator<<` returns the very logger it was invoked on: for every
streamed argument — printable value or manipulator — the returned reference
carries the receiver's address, and hence an arbitrary chain of streaming
operations acts on one logger object throughout. -/
theorem shl_returns_receiver (r : LoggerRef) (c : Id) (t : Nat) (s : LoggerSystem) :
    (∀ a : StreamArg, (r.shl c t s a).1.addr = r.addr) ∧
    (∀ args : List StreamArg, (r.shlChain c t s args).1.addr = r.addr) :=
  ⟨fun a => shl_addr r c t s a, fun args => shlChain_addr c t args r s⟩

end Log
